/-
Verification of the ADO-to-GitLab migration engine.

This file gives a shallow embedding, in Lean 4, of the pure decision logic
of the migration scripts (main_migrator.py, gitlab_interaction.py,
config_loader.py) and proves the behavioural properties stated about them.

Modelling conventions:
  * Remote API operations are modelled as functions from the attempt index
    (how many attempts have been made so far) to an outcome: a value or a
    raised exception, mirroring the Python exception classes caught by
    call_with_retry.
  * time.sleep is modelled by recording the slept durations in a list.
  * Logging calls are either elided (when no claim mentions them) or
    recorded as an explicit log-channel value.
  * Python strings are Lean Strings; Python ints are Lean Int / Nat with a
    note wherever the distinction matters.
-/
import Mathlib

namespace AdoGitlab

/-- Exceptions raised by the GitLab client, as far as call_with_retry
(gitlab_interaction.py lines 20-57) distinguishes them: the request
timeouts, GitlabHttpError with its HTTP status code, GitlabCreateError with
its message, GitlabGetError with its status code, and anything else. -/
inductive ApiExc where
  | readTimeout
  | connectTimeout
  | httpError (code : Nat)
  | createError (msg : String)
  | getError (code : Nat)
  | otherError
deriving DecidableEq, Repr

/-- Outcome of one underlying API call: a result or a raised exception. -/
inductive ApiResult (α : Type) where
  | ok (a : α)
  | exc (e : ApiExc)
deriving DecidableEq, Repr

/-- What a call to call_with_retry does, observably, for its caller:
return a value, return Python None, or let an exception propagate. -/
inductive RetryOutcome (α : Type) where
  | retVal (a : α)
  | retNone
  | raised (e : ApiExc)
deriving DecidableEq, Repr

/-- MAX_RETRIES = 3 (gitlab_interaction.py line 17). -/
def MAX_RETRIES : Nat := 3

/-- RETRY_DELAY_SECONDS = 5 (gitlab_interaction.py line 18). -/
def RETRY_DELAY_SECONDS : Nat := 5

/-- Retryable-error test of call_with_retry: a timeout, or a
GitlabHttpError whose response_code is in [429, 500, 502, 503, 504]
(gitlab_interaction.py lines 26-27).  Exceptions not caught by that
except clause are never tested, hence false here. -/
def isRetryableExc : ApiExc → Bool
  | .readTimeout => true
  | .connectTimeout => true
  | .httpError c => c = 429 ∨ c = 500 ∨ c = 502 ∨ c = 503 ∨ c = 504
  | _ => false

/-- The duplicate-message substrings scanned for by call_with_retry on a
GitlabCreateError (gitlab_interaction.py line 40). -/
def DUPLICATE_SUBSTRINGS : List String :=
  ["has already been taken", "already related", "already assigned",
   "member already exists", "title has already been taken"]

/-- Contiguous-substring test on character lists, modelling Python's
`needle in haystack` on strings. -/
def containsSub (needle : List Char) : List Char → Bool
  | [] => needle.isEmpty
  | c :: rest => needle.isPrefixOf (c :: rest) || containsSub needle rest

/-- any(m in str(e).lower() for m in DUPLICATE_SUBSTRINGS): substring
search over the lowercased message (gitlab_interaction.py line 40).
Lowercasing is per character (the messages involved are ASCII). -/
def isDuplicateMessage (msg : String) : Bool :=
  DUPLICATE_SUBSTRINGS.any (fun s => containsSub s.data (msg.data.map Char.toLower))

/-- The body of call_with_retry's for-loop (gitlab_interaction.py lines
22-57).  `attempt` is the 0-based loop variable, `fuel` the number of
iterations `range(MAX_RETRIES)` still has, `sleeps` the accumulated
time.sleep durations (most recent first; reversed on exit).  The branch
structure follows the except clauses in order:
  * ReadTimeout / ConnectTimeout / GitlabHttpError: retryable codes sleep
    RETRY_DELAY_SECONDS * (attempt + 1) and continue, except on the last
    attempt, where they re-raise; non-retryable codes re-raise at once;
  * GitlabCreateError: duplicate messages return None, others re-raise;
  * GitlabGetError: re-raised for every code (404 logged at debug);
  * anything else: re-raised.
Falling off the loop (possible only with fuel 0) returns Python None. -/
def retryGo (op : Nat → ApiResult α) : Nat → Nat → List Nat → RetryOutcome α × List Nat
  | _, 0, sleeps => (.retNone, sleeps.reverse)
  | attempt, fuel + 1, sleeps =>
    match op attempt with
    | .ok a => (.retVal a, sleeps.reverse)
    | .exc e =>
      match e with
      | .readTimeout | .connectTimeout | .httpError _ =>
        if isRetryableExc e then
          if attempt < MAX_RETRIES - 1 then
            retryGo op (attempt + 1) fuel (RETRY_DELAY_SECONDS * (attempt + 1) :: sleeps)
          else
            (.raised e, sleeps.reverse)
        else
          (.raised e, sleeps.reverse)
      | .createError msg =>
        if isDuplicateMessage msg then (.retNone, sleeps.reverse)
        else (.raised e, sleeps.reverse)
      | .getError _ => (.raised e, sleeps.reverse)
      | .otherError => (.raised e, sleeps.reverse)

/-- call_with_retry (gitlab_interaction.py lines 20-57): run the loop from
attempt 0 with MAX_RETRIES iterations, returning the caller-visible
outcome together with the list of sleep durations in order. -/
def call_with_retry (op : Nat → ApiResult α) : RetryOutcome α × List Nat :=
  retryGo op 0 MAX_RETRIES []

/-- link_gitlab_issues (gitlab_interaction.py lines 169-181), with the
fetch of the source issue and the link-create modelled as the two wrapped
operations (the link payload carries no decision logic and is elided).
The Python returns True whenever the fetch produced a truthy issue object,
even when the link-create came back None (the duplicate sentinel); any
exception escaping a wrapped call is caught and turned into False. -/
def link_gitlab_issues (fetchOp : Nat → ApiResult β) (createOp : Nat → ApiResult γ) : Bool :=
  match call_with_retry fetchOp with
  | (.retVal _, _) =>
    match call_with_retry createOp with
    | (.raised _, _) => false
    | _ => true
  | _ => false

/-- A remote label call issued by get_or_create_gitlab_label: a get of a
label by name, or a create of a label by name. -/
inductive LabelCall where
  | getCall (name : String)
  | createCall (name : String)
deriving DecidableEq, Repr

/-- get_or_create_gitlab_label (gitlab_interaction.py lines 81-110),
returning the resulting label name (or Python None) together with the
sequence of wrapped remote calls issued.  `if not label_name` rejects
exactly the empty string before any call; otherwise the label is fetched
through call_with_retry, a GitlabGetError 404 triggers the create path
(whose result is discarded: the function returns the name even when the
create came back None for a duplicate), any other escaping exception, on
either call, yields None.  Colour selection has no effect on the call
sequence or the returned name and is elided. -/
def get_or_create_gitlab_label (getOp : Nat → ApiResult β)
    (createOp : Nat → ApiResult γ) (label_name : String) :
    Option String × List LabelCall :=
  if label_name = "" then (none, [])
  else
    match call_with_retry getOp with
    | (.retVal _, _) => (some label_name, [.getCall label_name])
    | (.retNone, _) => (some label_name, [.getCall label_name])
    | (.raised e, _) =>
      match e with
      | .getError 404 =>
        match call_with_retry createOp with
        | (.raised _, _) => (none, [.getCall label_name, .createCall label_name])
        | _ => (some label_name, [.getCall label_name, .createCall label_name])
      | _ => (none, [.getCall label_name])

/-- One value of the ado_id_to_gitlab identity map: the dict written at
main_migrator.py line 421, with keys 'type', 'id' (the iid) and
'gitlab_global_id'. -/
structure MappingEntry where
  type : String
  id : Int
  gitlab_global_id : Int
deriving DecidableEq, Repr

/-- The Phase-1 state the claims are about: the identity map (a Python
dict, modelled as an association list in insertion order) and the list of
ADO ids for which a target-item create call has been issued. -/
structure Phase1State where
  mapping : List (Int × MappingEntry)
  createCalls : List Int
deriving DecidableEq, Repr

/-- One iteration of the Phase-1 loop (main_migrator.py lines 232-429),
restricted to its effect on the identity map and on create calls.
`createResult id` is the outcome of create_gitlab_epic / create_gitlab_issue
for that item (None models a creation failure, which the code logs and
skips).  When the id is already mapped the code only fetches the existing
item for comment migration (no create call, map untouched); otherwise it
creates the item and, on success, inserts the mapping and saves it. -/
def phase1_step (createResult : Int → Option MappingEntry)
    (st : Phase1State) (adoId : Int) : Phase1State :=
  match List.lookup adoId st.mapping with
  | some _ => st
  | none =>
    match createResult adoId with
    | some entry =>
      { mapping := st.mapping ++ [(adoId, entry)],
        createCalls := st.createCalls ++ [adoId] }
    | none => { st with createCalls := st.createCalls ++ [adoId] }

/-- The whole Phase-1 loop over the fetched work items. -/
def phase1_run (createResult : Int → Option MappingEntry)
    (items : List Int) (st : Phase1State) : Phase1State :=
  items.foldl (phase1_step createResult) st

/-- Classification of an ADO relation as hierarchical (main_migrator.py
lines 552-556): Hierarchy-Forward makes the relation target the parent and
the source the child, Hierarchy-Reverse the opposite; any other link
reference name is not hierarchical. -/
def classify_hierarchy (refName : String) (sourceGl targetGl : MappingEntry) :
    Option (MappingEntry × MappingEntry) :=
  if refName = "System.LinkTypes.Hierarchy-Forward" then some (targetGl, sourceGl)
  else if refName = "System.LinkTypes.Hierarchy-Reverse" then some (sourceGl, targetGl)
  else none

/-- The GitLab call chosen for a hierarchical relation. -/
inductive HierAction where
  | linkEpicIssue (epicIid issueGlobalId : Int)
  | linkIssues (sourceIid targetIid : Int) (linkType : String)
  | skipUnsupported
deriving DecidableEq, Repr

/-- The hierarchical branch of the Phase-2 relation dispatch
(main_migrator.py lines 558-570): parent epic and child issue attach the
issue (by gitlab_global_id) to the epic (by iid); parent issue and child
issue create a relates_to issue link between the two iids; every other
type combination is skipped with a log entry. -/
def hierarchical_link_action (parentGl childGl : MappingEntry) : HierAction :=
  if parentGl.type = "epic" ∧ childGl.type = "issue" then
    .linkEpicIssue parentGl.id childGl.gitlab_global_id
  else if parentGl.type = "issue" ∧ childGl.type = "issue" then
    .linkIssues parentGl.id childGl.id "relates_to"
  else
    .skipUnsupported

/-- The loop body of the all_segments_hierarchical strategy after the
first segment (main_migrator.py lines 350-356): extend the running
breadcrumb with the GitLab separator and emit one label per step. -/
def hier_go (pre sep acc : String) : List String → List String
  | [] => []
  | s :: rest => (pre ++ (acc ++ sep ++ s)) :: hier_go pre sep (acc ++ sep ++ s) rest

/-- all_segments_hierarchical label generation (main_migrator.py lines
349-356): one label per prefix of the segment list. -/
def hier_labels (pre sep : String) : List String → List String
  | [] => []
  | s :: rest => (pre ++ s) :: hier_go pre sep s rest

/-- Leading and trailing whitespace removal on a character list, what
Python's str.strip() (and int(str) before parsing) performs. -/
def stripChars (cs : List Char) : List Char :=
  ((cs.dropWhile Char.isWhitespace).reverse.dropWhile Char.isWhitespace).reverse

/-- Leading and trailing whitespace removal, Python's str.strip(). -/
def pyStrip (s : String) : String := ⟨stripChars s.data⟩

/-- Python's str.lower(), on the ASCII strings this program handles. -/
def pyLower (s : String) : String := ⟨s.data.map Char.toLower⟩

/-- The loop of Python's str.split(sep) for a non-empty separator: at each
position, a separator occurrence closes the current piece and is skipped,
any other character joins the current piece.  `fuel` bounds the recursion
by the input length (each step consumes at least one character). -/
def splitGo (sep : List Char) : Nat → List Char → List Char → List (List Char)
  | _, [], acc => [acc.reverse]
  | 0, cs, acc => [acc.reverse ++ cs]
  | fuel + 1, c :: rest, acc =>
    if sep ≠ [] ∧ sep.isPrefixOf (c :: rest) then
      acc.reverse :: splitGo sep fuel (List.drop sep.length (c :: rest)) []
    else
      splitGo sep fuel rest (c :: acc)

/-- Python's str.split(sep).  An empty separator makes Python raise
ValueError; this program always passes a configured non-empty level
separator, and the model returns the unsplit string in that unreachable
case. -/
def pySplit (sep s : String) : List String :=
  if sep = "" then [s]
  else (splitGo sep.data s.data.length s.data []).map (fun l => String.mk l)

/-- Area-path label derivation (main_migrator.py lines 330-357): split the
area path on the level separator, strip each segment and drop blanks, drop
the leading segment when it equals the project name case-insensitively,
then apply the configured strategy.  Unknown strategies produce no label. -/
def area_path_labels (adoAreaPath azureProject areaPref strategy levelSep gitlabSep : String) :
    List String :=
  let segs0 := ((pySplit levelSep adoAreaPath).map pyStrip).filter (fun s => s ≠ "")
  let path_segments :=
    match segs0 with
    | [] => ([] : List String)
    | h :: t => if pyLower h = pyLower azureProject then t else h :: t
  match path_segments with
  | [] => []
  | h :: t =>
    if strategy = "last_segment_only" then
      [areaPref ++ (h :: t).getLastD ""]
    else if strategy = "full_path" then
      [areaPref ++ String.intercalate gitlabSep (h :: t)]
    else if strategy = "all_segments" then
      (h :: t).map (fun s => areaPref ++ s)
    else if strategy = "all_segments_hierarchical" then
      hier_labels areaPref gitlabSep (h :: t)
    else []

/-- The migration footer (main_migrator.py lines 294-300).  adoId is the
integer work-item id; the priority value is modelled as the already
f-string-formatted text (it is absent from the footer exactly when the
field value is Python None); tags, area and iteration contribute exactly
when non-empty (Python string truthiness). -/
def migration_footer (adoId : Int) (adoType adoState : String)
    (priorityVal : Option String) (tags area iteration : String) : String :=
  let f := "\n\n---\nMigrated from ADO #" ++ toString adoId ++
    " (Type: " ++ adoType ++ ", State: " ++ adoState
  let f := match priorityVal with
    | some p => f ++ ", Priority: " ++ p
    | none => f
  let f := if tags ≠ "" then f ++ ", Original ADO Tags: " ++ tags else f
  let f := if area ≠ "" then f ++ ", Original Area: " ++ area else f
  let f := if iteration ≠ "" then f ++ ", Original Iteration: " ++ iteration else f
  f ++ ")"

/-- The character for a decimal digit value. -/
def digitChar (d : Nat) : Char := Char.ofNat (48 + d)

/-- The decimal digit value of a character. -/
def charVal (c : Char) : Nat := c.toNat - 48

/-- Value of a big-endian list of decimal digit values. -/
def natFromDigitList (ds : List Nat) : Nat := ds.foldl (fun a d => a * 10 + d) 0

/-- Decimal representation of a natural number as characters, most
significant first. -/
def natReprChars (n : Nat) : List Char :=
  if n = 0 then ['0'] else ((Nat.digits 10 n).reverse.map digitChar)

/-- Python str(int) / the key serialization json.dump applies to integer
dict keys: decimal digits with a leading minus sign for negatives. -/
def pyIntRepr (i : Int) : String :=
  ⟨if i < 0 then '-' :: natReprChars i.natAbs else natReprChars i.natAbs⟩

/-- Model of Python int(str) as used on JSON object keys
(config_loader.py line 21): strip whitespace, accept an optional single
sign followed by one or more decimal digits, reject anything else (the
ValueError is the `none` case).  Underscore separators and non-ASCII
digits, which CPython also accepts, do not occur in this program's files
and are modelled as rejected. -/
def pyIntParse (s : String) : Option Int :=
  match stripChars s.data with
  | [] => none
  | c :: rest =>
    let ds := if c = '-' ∨ c = '+' then rest else c :: rest
    if ds ≠ [] ∧ ds.all Char.isDigit then
      some (if c = '-' then -(natFromDigitList (ds.map charVal) : Int)
            else (natFromDigitList (ds.map charVal) : Int))
    else none

/-- What load_mapping (config_loader.py lines 14-31) finds: no file, a
file json.load rejects (json.JSONDecodeError), a file parsed to a value
with no .items() (AttributeError, caught by the generic handler), or a
parsed JSON object given as its key-value pairs in file order.  JSON
parsing itself is the Python stdlib, external to this repository, so its
outcome is the model's input. -/
inductive LoadInput (α : Type) where
  | fileAbsent
  | parseError
  | parsedNonObject
  | parsedObject (entries : List (String × α))
deriving DecidableEq, Repr

/-- The log channel load_mapping writes on, one per branch of the
function. -/
inductive LoadLog where
  | logWarning
  | logError
  | logInfoNotFound
  | logDebugOk
deriving DecidableEq, Repr

/-- The dict comprehension of config_loader.py line 21: convert every key
with int(); the first ValueError aborts the whole comprehension (none). -/
def intKeys (entries : List (String × α)) : Option (List (Int × α)) :=
  match entries with
  | [] => some []
  | (k, v) :: rest =>
    match pyIntParse k, intKeys rest with
    | some i, some m => some ((i, v) :: m)
    | _, _ => none

/-- load_mapping (config_loader.py lines 14-31): a missing file logs at
info and yields an empty map; a json.JSONDecodeError or a ValueError from
int(k) logs a warning and yields an empty map; any other exception (e.g.
.items() on a non-object) logs an error and yields an empty map; otherwise
the integer-keyed map is returned with a debug log.  The function never
raises. -/
def load_mapping (input : LoadInput α) : List (Int × α) × LoadLog :=
  match input with
  | .fileAbsent => ([], .logInfoNotFound)
  | .parseError => ([], .logWarning)
  | .parsedNonObject => ([], .logError)
  | .parsedObject entries =>
    match intKeys entries with
    | some m => (m, .logDebugOk)
    | none => ([], .logWarning)

/-- save_mapping (config_loader.py lines 33-40): json.dump writes the dict
as a JSON object in insertion order, serializing each integer key as its
decimal string.  The model returns the object's key-value pairs, i.e. what
json.load will hand back to load_mapping. -/
def save_mapping (mapping_data : List (Int × α)) : List (String × α) :=
  mapping_data.map (fun kv => (pyIntRepr kv.1, kv.2))

/-- The checkpoint record written by save_checkpoint (main_migrator.py
lines 49-57), without the wall-clock timestamp field (datetime.now is
nondeterministic and no claim concerns it).  Python float arithmetic on
these small integer operands is modelled exactly, in ℚ. -/
structure Checkpoint where
  completed_ids : List Int
  total_count : Nat
  completion_rate : ℚ
deriving DecidableEq, Repr

/-- save_checkpoint (main_migrator.py lines 49-57): the checkpoint dict is
built, including completion_rate = len(completed_ids) / total_count * 100,
before the file is opened; a zero total_count raises ZeroDivisionError
there (the `none` case), so nothing is written. -/
def save_checkpoint (completed_ids : List Int) (total_count : Nat) : Option Checkpoint :=
  if total_count = 0 then none
  else some
    { completed_ids := completed_ids,
      total_count := total_count,
      completion_rate := (completed_ids.length : ℚ) / (total_count : ℚ) * 100 }

/-! ### Supporting lemmas -/

theorem dropWhile_eq_self (p : Char → Bool) (cs : List Char)
    (h : ∀ c ∈ cs, p c = false) : cs.dropWhile p = cs := by
  cases cs with
  | nil => rfl
  | cons c t => simp [List.dropWhile_cons, h c (List.mem_cons_self c t)]

theorem stripChars_eq_self (cs : List Char)
    (h : ∀ c ∈ cs, c.isWhitespace = false) : stripChars cs = cs := by
  unfold stripChars
  rw [dropWhile_eq_self _ _ h,
    dropWhile_eq_self _ _ (fun c hc => h c (List.mem_reverse.mp hc)),
    List.reverse_reverse]

theorem digitChar_spec (d : Nat) (hd : d < 10) :
    (digitChar d).isDigit = true ∧ (digitChar d).isWhitespace = false ∧
    charVal (digitChar d) = d ∧ digitChar d ≠ '-' ∧ digitChar d ≠ '+' := by
  interval_cases d <;> exact ⟨by decide, by decide, by decide, by decide, by decide⟩

theorem natFromDigitList_reverse (l : List Nat) :
    natFromDigitList l.reverse = Nat.ofDigits 10 l := by
  induction l with
  | nil => rfl
  | cons d t ih =>
    rw [List.reverse_cons]
    unfold natFromDigitList at ih ⊢
    rw [List.foldl_append, Nat.ofDigits_cons, ih]
    simp
    omega

theorem natReprChars_spec (n : Nat) :
    natReprChars n ≠ [] ∧
    (∀ c ∈ natReprChars n,
      c.isDigit = true ∧ c.isWhitespace = false ∧ c ≠ '-' ∧ c ≠ '+') ∧
    natFromDigitList ((natReprChars n).map charVal) = n := by
  by_cases hn : n = 0
  · subst hn
    refine ⟨by decide, ?_, by decide⟩
    intro c hc
    simp [natReprChars] at hc
    subst hc
    exact ⟨by decide, by decide, by decide, by decide⟩
  · have hd : ∀ d ∈ Nat.digits 10 n, d < 10 :=
      fun d h => Nat.digits_lt_base (by norm_num) h
    have hmem : ∀ c ∈ natReprChars n, ∃ d, d < 10 ∧ c = digitChar d := by
      intro c hc
      unfold natReprChars at hc
      simp [hn] at hc
      obtain ⟨d, hdm, rfl⟩ := hc
      exact ⟨d, hd d hdm, rfl⟩
    refine ⟨?_, ?_, ?_⟩
    · unfold natReprChars
      simp [hn, Nat.digits_ne_nil_iff_ne_zero.mpr hn]
    · intro c hc
      obtain ⟨d, hdlt, rfl⟩ := hmem c hc
      obtain ⟨h1, h2, h3, h4, h5⟩ := digitChar_spec d hdlt
      exact ⟨h1, h2, h4, h5⟩
    · unfold natReprChars
      simp only [hn, if_false]
      rw [List.map_map]
      rw [List.map_congr_left (g := id) ?hcong]
      · rw [List.map_id, natFromDigitList_reverse, Nat.ofDigits_digits]
      · intro d hdm
        exact (digitChar_spec d (hd d (List.mem_reverse.mp hdm))).2.2.1

theorem pyIntParse_pyIntRepr (i : Int) : pyIntParse (pyIntRepr i) = some i := by
  obtain ⟨hne, hchars, hval⟩ := natReprChars_spec i.natAbs
  by_cases hi : i < 0
  · have hstrip : stripChars ('-' :: natReprChars i.natAbs) = '-' :: natReprChars i.natAbs := by
      apply stripChars_eq_self
      intro c hc
      rcases List.mem_cons.mp hc with rfl | h
      · decide
      · exact (hchars c h).2.1
    have hall : (natReprChars i.natAbs).all Char.isDigit = true :=
      List.all_eq_true.mpr (fun c hc => (hchars c hc).1)
    unfold pyIntRepr pyIntParse
    simp only [hi, if_true, hstrip, true_or, if_true]
    rw [if_pos ⟨hne, hall⟩, hval]
    simp only [Option.some.injEq]
    omega
  · have hstrip : stripChars (natReprChars i.natAbs) = natReprChars i.natAbs :=
      stripChars_eq_self _ (fun c hc => (hchars c hc).2.1)
    cases hl : natReprChars i.natAbs with
    | nil => exact absurd hl hne
    | cons c rest =>
      have hcfacts := hchars c (hl ▸ List.mem_cons_self c rest)
      have hall : (c :: rest).all Char.isDigit = true :=
        List.all_eq_true.mpr (fun x hx => (hchars x (hl ▸ hx)).1)
      unfold pyIntRepr pyIntParse
      simp only [hi, if_false]
      rw [hl] at hstrip hval ⊢
      rw [hstrip]
      rw [List.map_cons] at hval
      have hcond : ¬('-' = c ∨ '+' = c) := by
        rintro (rfl | rfl)
        · exact hcfacts.2.2.1 rfl
        · exact hcfacts.2.2.2 rfl
      simp only [eq_comm] at hcond
      dsimp only
      rw [if_neg hcond]
      rw [if_pos ⟨List.cons_ne_nil c rest, hall⟩]
      rw [if_neg hcfacts.2.2.1]
      rw [List.map_cons, hval]
      simp only [Option.some.injEq]
      omega

theorem intKeys_save_mapping (m : List (Int × α)) : intKeys (save_mapping m) = some m := by
  induction m with
  | nil => rfl
  | cons kv t ih =>
    obtain ⟨k, v⟩ := kv
    show intKeys ((pyIntRepr k, v) :: save_mapping t) = some ((k, v) :: t)
    rw [intKeys, pyIntParse_pyIntRepr, ih]

theorem intKeys_none_of_bad (entries : List (String × α)) (k : String) (v : α)
    (hmem : (k, v) ∈ entries) (hbad : pyIntParse k = none) : intKeys entries = none := by
  induction entries with
  | nil => simp at hmem
  | cons kv t ih =>
    rcases List.mem_cons.mp hmem with heq | hmem2
    · rw [← heq]
      simp [intKeys, hbad]
    · have := ih hmem2
      obtain ⟨k2, v2⟩ := kv
      cases h2 : pyIntParse k2 <;> simp [intKeys, h2, this]

theorem retryable_cases (e : ApiExc) (hr : isRetryableExc e = true) :
    e = .readTimeout ∨ e = .connectTimeout ∨ ∃ c, e = .httpError c := by
  cases e <;> simp_all [isRetryableExc]

theorem retryGo_ok (op : Nat → ApiResult α) (attempt fuel : Nat) (sleeps : List Nat)
    (a : α) (h : op attempt = .ok a) :
    retryGo op attempt (fuel + 1) sleeps = (.retVal a, sleeps.reverse) := by
  simp [retryGo, h]

theorem retryGo_retryable_step (op : Nat → ApiResult α) (attempt fuel : Nat) (sleeps : List Nat)
    (e : ApiExc) (he : op attempt = .exc e) (hr : isRetryableExc e = true)
    (hlt : attempt < MAX_RETRIES - 1) :
    retryGo op attempt (fuel + 1) sleeps =
      retryGo op (attempt + 1) fuel (RETRY_DELAY_SECONDS * (attempt + 1) :: sleeps) := by
  rcases retryable_cases e hr with rfl | rfl | ⟨c, rfl⟩ <;>
    simp [retryGo, he, hr, hlt]

theorem retryGo_retryable_last (op : Nat → ApiResult α) (attempt fuel : Nat) (sleeps : List Nat)
    (e : ApiExc) (he : op attempt = .exc e) (hr : isRetryableExc e = true)
    (hge : ¬ attempt < MAX_RETRIES - 1) :
    retryGo op attempt (fuel + 1) sleeps = (.raised e, sleeps.reverse) := by
  rcases retryable_cases e hr with rfl | rfl | ⟨c, rfl⟩ <;>
    simp [retryGo, he, hr, hge]

theorem lookup_cons (k a : Int) (b : MappingEntry) (t : List (Int × MappingEntry)) :
    List.lookup k ((a, b) :: t) = if k == a then some b else List.lookup k t := by
  cases hk : k == a <;> simp [List.lookup, hk]

theorem lookup_append_some (k : Int) (l l2 : List (Int × MappingEntry)) (e : MappingEntry)
    (h : List.lookup k l = some e) : List.lookup k (l ++ l2) = some e := by
  induction l with
  | nil => simp [List.lookup] at h
  | cons p t ih =>
    obtain ⟨a, b⟩ := p
    rw [List.cons_append, lookup_cons]
    rw [lookup_cons] at h
    by_cases hk : (k == a) = true
    · rw [if_pos hk] at h
      rw [if_pos hk]
      exact h
    · rw [if_neg hk] at h
      rw [if_neg hk]
      exact ih h

theorem lookup_append_none (k : Int) (l l2 : List (Int × MappingEntry))
    (h : List.lookup k l = none) : List.lookup k (l ++ l2) = List.lookup k l2 := by
  induction l with
  | nil => simp
  | cons p t ih =>
    obtain ⟨a, b⟩ := p
    rw [List.cons_append, lookup_cons]
    rw [lookup_cons] at h
    by_cases hk : (k == a) = true
    · rw [if_pos hk] at h
      simp at h
    · rw [if_neg hk] at h
      rw [if_neg hk]
      exact ih h

theorem phase1_step_skip (cr : Int → Option MappingEntry) (st : Phase1State) (adoId : Int)
    (h : (List.lookup adoId st.mapping).isSome) : phase1_step cr st adoId = st := by
  unfold phase1_step
  cases hl : List.lookup adoId st.mapping with
  | some e => rfl
  | none => rw [hl] at h; simp at h

theorem phase1_run_fixed (cr : Int → Option MappingEntry) (items : List Int) (st : Phase1State)
    (h : ∀ id ∈ items, (List.lookup id st.mapping).isSome) :
    phase1_run cr items st = st := by
  induction items with
  | nil => rfl
  | cons i t ih =>
    show phase1_run cr t (phase1_step cr st i) = st
    rw [phase1_step_skip cr st i (h i (List.mem_cons_self i t))]
    exact ih (fun id hid => h id (List.mem_cons_of_mem i hid))

theorem phase1_step_mono (cr : Int → Option MappingEntry) (st : Phase1State) (adoId k : Int)
    (h : (List.lookup k st.mapping).isSome) :
    (List.lookup k ((phase1_step cr st adoId).mapping)).isSome := by
  obtain ⟨e, he⟩ := Option.isSome_iff_exists.mp h
  unfold phase1_step
  cases hl : List.lookup adoId st.mapping with
  | some e2 => exact h
  | none =>
    cases hcr : cr adoId with
    | none => exact h
    | some entry =>
      show (List.lookup k (st.mapping ++ [(adoId, entry)])).isSome
      rw [lookup_append_some k st.mapping _ e he]
      rfl

theorem phase1_step_covers (cr : Int → Option MappingEntry) (st : Phase1State) (adoId : Int)
    (hc : (cr adoId).isSome) :
    (List.lookup adoId ((phase1_step cr st adoId).mapping)).isSome := by
  unfold phase1_step
  cases hl : List.lookup adoId st.mapping with
  | some e => simp [hl]
  | none =>
    cases hcr : cr adoId with
    | none => rw [hcr] at hc; simp at hc
    | some entry =>
      show (List.lookup adoId (st.mapping ++ [(adoId, entry)])).isSome
      rw [lookup_append_none adoId st.mapping _ hl]
      simp [List.lookup]

theorem phase1_run_mono (cr : Int → Option MappingEntry) (items : List Int) (st : Phase1State)
    (k : Int) (h : (List.lookup k st.mapping).isSome) :
    (List.lookup k ((phase1_run cr items st).mapping)).isSome := by
  induction items generalizing st with
  | nil => exact h
  | cons i t ih =>
    show (List.lookup k ((phase1_run cr t (phase1_step cr st i)).mapping)).isSome
    exact ih (phase1_step cr st i) (phase1_step_mono cr st i k h)

theorem phase1_run_covers (cr : Int → Option MappingEntry) (items : List Int) (st : Phase1State)
    (hc : ∀ id, (cr id).isSome) :
    ∀ id ∈ items, (List.lookup id ((phase1_run cr items st).mapping)).isSome := by
  induction items generalizing st with
  | nil => intro id hid; simp at hid
  | cons i t ih =>
    intro id hid
    rcases List.mem_cons.mp hid with rfl | hid2
    · show (List.lookup id ((phase1_run cr t (phase1_step cr st id)).mapping)).isSome
      exact phase1_run_mono cr t _ id (phase1_step_covers cr st id (hc id))
    · exact ih (phase1_step cr st i) id hid2


/-! ### Claim theorems -/

/-- Claim C1: idempotent re-entry of Phase 1.  A source item whose id is
already in the identity map is skipped: no create call is issued and its
mapping entry is unchanged; consequently, once a run has left every item
of the snapshot mapped, a second run over the same snapshot issues zero
create calls and leaves the map unchanged; and a run whose creates all
succeed does leave every item mapped. -/
theorem phase1_idempotent_reentry (cr cr2 : Int → Option MappingEntry)
    (items : List Int) (m0 : List (Int × MappingEntry)) :
    (∀ (st : Phase1State) (adoId : Int), (List.lookup adoId st.mapping).isSome →
        phase1_step cr st adoId = st) ∧
    ((∀ id ∈ items, (List.lookup id (phase1_run cr items ⟨m0, []⟩).mapping).isSome) →
        phase1_run cr2 items ⟨(phase1_run cr items ⟨m0, []⟩).mapping, []⟩ =
          ⟨(phase1_run cr items ⟨m0, []⟩).mapping, []⟩) ∧
    ((∀ id, (cr id).isSome) → ∀ id ∈ items,
        (List.lookup id (phase1_run cr items ⟨m0, []⟩).mapping).isSome) := by
  refine ⟨fun st adoId h => phase1_step_skip cr st adoId h, ?_, ?_⟩
  · intro h
    exact phase1_run_fixed cr2 items _ h
  · intro hc
    exact phase1_run_covers cr items _ hc

/-- A concrete always-succeeding create oracle for the C1 witness. -/
def crW : Int → Option MappingEntry := fun _ => some ⟨"issue", 1, 101⟩

/-- Witness for C1 at a concrete snapshot: after a first run over item 7,
a second run changes nothing and issues no create call, and the step on an
already-mapped id is the identity. -/
theorem phase1_idempotent_reentry_witness :
    phase1_run crW [7] ⟨(phase1_run crW [7] ⟨[], []⟩).mapping, []⟩ =
      ⟨(phase1_run crW [7] ⟨[], []⟩).mapping, []⟩ ∧
    phase1_step crW ⟨[(7, ⟨"issue", 1, 101⟩)], []⟩ 7 = ⟨[(7, ⟨"issue", 1, 101⟩)], []⟩ :=
  ⟨(phase1_idempotent_reentry crW crW [7] []).2.1
      ((phase1_idempotent_reentry crW crW [7] []).2.2 (fun _ => rfl)),
   (phase1_idempotent_reentry crW crW [7] []).1 ⟨[(7, ⟨"issue", 1, 101⟩)], []⟩ 7 (by decide)⟩

/-- Claim C2: an operation failing retryably (timeout or HTTP
429/500/502/503/504) on attempts 0 and 1 and succeeding on attempt 2 makes
call_with_retry return the success with exactly two sleeps of 5 then 10
seconds (RETRY_DELAY_SECONDS times the 1-based attempt number) and no
raised exception; a third consecutive retryable failure is raised, after
the same two sleeps. -/
theorem call_with_retry_linear_backoff (op : Nat → ApiResult α) (a : α) (e0 e1 e2 : ApiExc)
    (h0 : op 0 = .exc e0) (hr0 : isRetryableExc e0 = true)
    (h1 : op 1 = .exc e1) (hr1 : isRetryableExc e1 = true) :
    (op 2 = .ok a → call_with_retry op = (.retVal a, [5, 10])) ∧
    (op 2 = .exc e2 → isRetryableExc e2 = true →
      call_with_retry op = (.raised e2, [5, 10])) := by
  have step0 : call_with_retry op = retryGo op 1 2 [5] := by
    show retryGo op 0 MAX_RETRIES [] = retryGo op 1 2 [5]
    rw [show MAX_RETRIES = 2 + 1 from rfl]
    rw [retryGo_retryable_step op 0 2 [] e0 h0 hr0 (by decide)]
    rfl
  have step1 : retryGo op 1 2 [5] = retryGo op 2 1 [10, 5] := by
    rw [show (2 : Nat) = 1 + 1 from rfl]
    rw [retryGo_retryable_step op 1 1 [5] e1 h1 hr1 (by decide)]
    rfl
  constructor
  · intro h2
    rw [step0, step1, show (1 : Nat) = 0 + 1 from rfl, retryGo_ok op 2 0 [10, 5] a h2]
    rfl
  · intro h2 hr2
    rw [step0, step1, show (1 : Nat) = 0 + 1 from rfl,
      retryGo_retryable_last op 2 0 [10, 5] e2 h2 hr2 (by decide)]
    rfl

/-- Witness for C2: two 503 failures then success return the value with
sleeps [5, 10]; three 503 failures raise with the same sleeps. -/
theorem call_with_retry_linear_backoff_witness :
    call_with_retry (fun n => if n < 2 then ApiResult.exc (ApiExc.httpError 503) else ApiResult.ok 7) =
      (.retVal 7, [5, 10]) ∧
    call_with_retry (fun _ => (ApiResult.exc (ApiExc.httpError 503) : ApiResult Nat)) =
      (.raised (ApiExc.httpError 503), [5, 10]) :=
  ⟨(call_with_retry_linear_backoff _ 7 (ApiExc.httpError 503) (ApiExc.httpError 503)
      (ApiExc.httpError 503) (by decide) (by decide) (by decide) (by decide)).1 (by decide),
   (call_with_retry_linear_backoff _ 7 (ApiExc.httpError 503) (ApiExc.httpError 503)
      (ApiExc.httpError 503) (by decide) (by decide) (by decide) (by decide)).2
      (by decide) (by decide)⟩

/-- Claim C3: a create operation failing at once with a GitlabCreateError
whose message contains a known duplicate substring makes call_with_retry
return None without sleeping and without raising, and a caller such as
link_gitlab_issues treats that None as success (returns True). -/
theorem call_with_retry_duplicate_create (op : Nat → ApiResult α) (fetchOp : Nat → ApiResult β)
    (msg : String) (issue : β)
    (h0 : op 0 = .exc (.createError msg)) (hdup : isDuplicateMessage msg = true)
    (hf : fetchOp 0 = .ok issue) :
    call_with_retry op = (.retNone, []) ∧ link_gitlab_issues fetchOp op = true := by
  have h1 : call_with_retry op = (.retNone, []) := by
    show retryGo op 0 MAX_RETRIES [] = (.retNone, [])
    rw [show MAX_RETRIES = 2 + 1 from rfl]
    simp [retryGo, h0, hdup]
  have h2 : call_with_retry fetchOp = (.retVal issue, []) := by
    show retryGo fetchOp 0 MAX_RETRIES [] = (.retVal issue, [])
    rw [show MAX_RETRIES = 2 + 1 from rfl, retryGo_ok fetchOp 0 2 [] issue hf]
    rfl
  refine ⟨h1, ?_⟩
  unfold link_gitlab_issues
  rw [h1, h2]

/-- Witness for C3 on the message of a duplicated milestone title. -/
theorem call_with_retry_duplicate_create_witness :
    call_with_retry
      (fun _ => (ApiResult.exc (ApiExc.createError "Title has already been taken") : ApiResult Nat)) =
      (.retNone, []) ∧
    link_gitlab_issues (fun _ => (ApiResult.ok 3 : ApiResult Nat))
      (fun _ => (ApiResult.exc (ApiExc.createError "Title has already been taken") : ApiResult Nat)) =
      true :=
  call_with_retry_duplicate_create _ _ "Title has already been taken" 3
    (by decide) (by decide) (by decide)

/-- Claim C4: the four area-path strategies on path ProjectX\TeamA\SubTeam
with project name ProjectX, level separator backslash, label prefix
area:: and GitLab separator :: derive exactly the label sets stated in the
spec (the project-name first segment being dropped case-insensitively). -/
theorem area_path_label_strategies :
    area_path_labels "ProjectX\\TeamA\\SubTeam" "ProjectX" "area::" "last_segment_only" "\\" "::" =
      ["area::SubTeam"] ∧
    area_path_labels "ProjectX\\TeamA\\SubTeam" "ProjectX" "area::" "all_segments" "\\" "::" =
      ["area::TeamA", "area::SubTeam"] ∧
    area_path_labels "ProjectX\\TeamA\\SubTeam" "ProjectX" "area::" "all_segments_hierarchical" "\\" "::" =
      ["area::TeamA", "area::TeamA::SubTeam"] ∧
    area_path_labels "ProjectX\\TeamA\\SubTeam" "ProjectX" "area::" "full_path" "\\" "::" =
      ["area::TeamA::SubTeam"] :=
  ⟨by decide, by decide, by decide, by decide⟩

/-- Claim C5: hierarchical relation mapping.  Hierarchy-Forward makes the
relation target the parent and the source the child, Hierarchy-Reverse the
opposite; a mapped epic parent with a mapped issue child attaches the
issue to the epic, two mapped issues get a relates_to link, and every
other combination makes no link call (skip with log entry). -/
theorem hierarchical_relation_mapping (s t p c : MappingEntry) :
    classify_hierarchy "System.LinkTypes.Hierarchy-Forward" s t = some (t, s) ∧
    classify_hierarchy "System.LinkTypes.Hierarchy-Reverse" s t = some (s, t) ∧
    (p.type = "epic" → c.type = "issue" →
      hierarchical_link_action p c = .linkEpicIssue p.id c.gitlab_global_id) ∧
    (p.type = "issue" → c.type = "issue" →
      hierarchical_link_action p c = .linkIssues p.id c.id "relates_to") ∧
    (¬(p.type = "epic" ∧ c.type = "issue") → ¬(p.type = "issue" ∧ c.type = "issue") →
      hierarchical_link_action p c = .skipUnsupported) := by
  refine ⟨?_, ?_, ?_, ?_, ?_⟩
  · unfold classify_hierarchy
    rw [if_pos rfl]
  · unfold classify_hierarchy
    rw [if_neg (by decide), if_pos rfl]
  · intro hp hc
    unfold hierarchical_link_action
    rw [if_pos ⟨hp, hc⟩]
  · intro hp hc
    unfold hierarchical_link_action
    rw [if_neg ?nc, if_pos ⟨hp, hc⟩]
    rintro ⟨h1, h2⟩
    rw [hp] at h1
    exact absurd h1 (by decide)
  · intro h1 h2
    unfold hierarchical_link_action
    rw [if_neg h1, if_neg h2]

/-- Witness for C5 at concrete mapping entries, one per branch. -/
theorem hierarchical_relation_mapping_witness :
    hierarchical_link_action ⟨"epic", 4, 40⟩ ⟨"issue", 5, 50⟩ = .linkEpicIssue 4 50 ∧
    hierarchical_link_action ⟨"issue", 6, 60⟩ ⟨"issue", 7, 70⟩ = .linkIssues 6 7 "relates_to" ∧
    hierarchical_link_action ⟨"issue", 8, 80⟩ ⟨"epic", 9, 90⟩ = .skipUnsupported :=
  ⟨(hierarchical_relation_mapping ⟨"x", 0, 0⟩ ⟨"x", 0, 0⟩ ⟨"epic", 4, 40⟩ ⟨"issue", 5, 50⟩).2.2.1
      rfl rfl,
   (hierarchical_relation_mapping ⟨"x", 0, 0⟩ ⟨"x", 0, 0⟩ ⟨"issue", 6, 60⟩ ⟨"issue", 7, 70⟩).2.2.2.1
      rfl rfl,
   (hierarchical_relation_mapping ⟨"x", 0, 0⟩ ⟨"x", 0, 0⟩ ⟨"issue", 8, 80⟩ ⟨"epic", 9, 90⟩).2.2.2.2
      (by decide) (by decide)⟩

/-- Claim C6: load_mapping returns an empty map with a warning both on a
file json.load rejects and on a parsed object one of whose keys is not
integer-parseable; a missing file also yields an empty map (with an info
log); being a total function, it never raises. -/
theorem load_mapping_malformed_recovery (entries : List (String × α)) (k : String) (v : α) :
    load_mapping (LoadInput.parseError : LoadInput α) = ([], .logWarning) ∧
    ((k, v) ∈ entries → pyIntParse k = none →
      load_mapping (.parsedObject entries) = ([], .logWarning)) ∧
    load_mapping (LoadInput.fileAbsent : LoadInput α) = ([], .logInfoNotFound) := by
  refine ⟨rfl, ?_, rfl⟩
  intro hmem hbad
  simp [load_mapping, intKeys_none_of_bad entries k v hmem hbad]

/-- Witness for C6 on an object with the non-numeric key abc. -/
theorem load_mapping_malformed_recovery_witness :
    load_mapping (LoadInput.parsedObject [("abc", 0)]) = ([], LoadLog.logWarning) :=
  (load_mapping_malformed_recovery [("abc", (0 : Nat))] "abc" 0).2.1 (by decide) (by decide)

/-- Claim C7: the migration footer is a pure function of the item id,
type, state, priority, tags, area path and iteration path: two evaluations
over identical field values produce the same string. -/
theorem migration_footer_deterministic
    (id1 id2 : Int) (ty1 ty2 st1 st2 : String) (pr1 pr2 : Option String)
    (tg1 tg2 ar1 ar2 it1 it2 : String)
    (hid : id1 = id2) (hty : ty1 = ty2) (hst : st1 = st2) (hpr : pr1 = pr2)
    (htg : tg1 = tg2) (har : ar1 = ar2) (hit : it1 = it2) :
    migration_footer id1 ty1 st1 pr1 tg1 ar1 it1 =
      migration_footer id2 ty2 st2 pr2 tg2 ar2 it2 := by
  subst hid hty hst hpr htg har hit
  rfl

/-- Witness for C7 at one concrete field valuation. -/
theorem migration_footer_deterministic_witness :
    migration_footer 12 "Bug" "Active" (some "1") "a;b" "P\\Q" "P\\S1" =
      migration_footer 12 "Bug" "Active" (some "1") "a;b" "P\\Q" "P\\S1" :=
  migration_footer_deterministic 12 12 "Bug" "Bug" "Active" "Active" (some "1") (some "1")
    "a;b" "a;b" "P\\Q" "P\\Q" "P\\S1" "P\\S1" rfl rfl rfl rfl rfl rfl rfl

/-- Claim C8 counterexample: for the whitespace-only label name, the code
does issue a remote get call (and, the get succeeding, returns the name,
not None): `if not label_name` only rejects the empty string, so the claim
that whitespace-only names are rejected before any call is false. -/
theorem get_or_create_label_blank_name_calls :
    get_or_create_gitlab_label (fun _ => (ApiResult.ok 0 : ApiResult Nat))
      (fun _ => (ApiResult.ok 0 : ApiResult Nat)) " " =
      (some " ", [LabelCall.getCall " "]) := by decide

/-- Claim C8 (amended): for the empty label name,
get_or_create_gitlab_label returns None without issuing any remote get or
create call, whatever the remote would answer. -/
theorem get_or_create_label_empty_name (getOp : Nat → ApiResult β)
    (createOp : Nat → ApiResult γ) :
    get_or_create_gitlab_label getOp createOp "" = (none, []) := rfl

/-- Claim C9: writing an integer-keyed identity map with save_mapping and
reading the resulting JSON object back with load_mapping restores the map:
keys go out as decimal object keys and come back as the same integers, and
every value record is preserved unchanged. -/
theorem mapping_roundtrip (m : List (Int × α)) :
    load_mapping (LoadInput.parsedObject (save_mapping m)) = (m, LoadLog.logDebugOk) := by
  simp [load_mapping, intKeys_save_mapping]

/-- Claim C10: save_checkpoint with total_count 0 raises ZeroDivisionError
while building the record, before the checkpoint file is written (the none
case); for positive total_count it writes a record whose completion_rate
is len(completed_ids) / total_count * 100. -/
theorem save_checkpoint_spec (completed_ids : List Int) :
    save_checkpoint completed_ids 0 = none ∧
    (∀ total_count : Nat, 0 < total_count →
      save_checkpoint completed_ids total_count =
        some ⟨completed_ids, total_count,
          (completed_ids.length : ℚ) / (total_count : ℚ) * 100⟩) := by
  refine ⟨rfl, ?_⟩
  intro total htc
  rw [save_checkpoint, if_neg (by omega)]

/-- Witness for C10: two completed ids out of eight give rate 25. -/
theorem save_checkpoint_spec_witness :
    save_checkpoint [3, 4] 8 =
      some ⟨[3, 4], 8, (([3, 4] : List Int).length : ℚ) / ((8 : Nat) : ℚ) * 100⟩ :=
  (save_checkpoint_spec [3, 4]).2 8 (by norm_num)

end AdoGitlab
